import Mathlib

/-!
Verification of the gc-api decision lifecycle engine.

A shallow embedding of the decision module: the repository layer
(`decisions.repository.ts`), the service layer (`decisions.service.ts`),
the recommendation agent (`decisionProposal.agent.ts`) and the HTTP
handlers, together with theorems settling the spec claims.

Modelling conventions:
- Database state is a `DB` record of row lists; Prisma operations become
  pure functions on `DB`.  A Prisma `$transaction` is a function that
  either returns a new committed `DB` or an error committing nothing
  (rollback): partial application is unrepresentable, which is exactly
  Prisma's contract.
- JavaScript truthiness on optional strings (`x || y`, `if (x)`) is made
  explicit through `strTruthy` / `strOr` / `presentOpt`; numeric ids use
  `natTruthy` (0 is falsy, matching `c.get("userId") || 0` and the
  positive serial ids of the schema).
- External effects (the signal gatherer's output and the OpenAI call)
  enter as parameters: the signal bundle is an opaque `String`, the AI
  call an `Except String DecisionRecommendation` oracle.
- JSON-typed columns (signals, metadata) are opaque strings the engine
  never inspects, mirroring the spec's "opaque structured data".
-/

namespace GcApi

/-- JS truthiness of an optional string: `undefined`, `null` and `""` are
falsy, every other string is truthy. -/
def strTruthy : Option String → Bool
  | none => false
  | some s => s ≠ ""

/-- JS truthiness of a numeric id: `0` is falsy (cf. `c.get("userId") || 0`). -/
def natTruthy (n : Nat) : Bool := n ≠ 0

/-- JS `x || d` on an optional string with a string default. -/
def strOr (x : Option String) (d : String) : String :=
  match x with
  | some s => if s = "" then d else s
  | none => d

/-- JS `x || undefined` / `x || null`: a blank or absent string collapses
to an absent value. -/
def presentOpt (x : Option String) : Option String :=
  match x with
  | some s => if s = "" then none else some s
  | none => none

/-- Postgres enum `decision_status` from the initial migration. -/
inductive DecisionStatus
  | PROPOSED
  | PENDING_REVIEW
  | APPROVED
  | REJECTED
  | OVERRIDDEN
  | EXPIRED
  | ESCALATED
deriving DecidableEq, Repr

/-- Postgres enum `decision_confidence`. -/
inductive DecisionConfidence
  | LOW
  | MEDIUM
  | HIGH
deriving DecidableEq, Repr

/-- Postgres enum `decision_type`. -/
inductive DecisionType
  | DISCOUNT
  | ONBOARDING
  | PAYMENT_TERMS
  | CREDIT_EXTENSION
  | PARTNERSHIP
  | RENEWAL
  | ESCALATION
  | CUSTOM
deriving DecidableEq, Repr

/-- Postgres enum `override_action`. -/
inductive OverrideAction
  | APPROVED
  | REJECTED
  | ESCALATED
  | MODIFIED
deriving DecidableEq, Repr

/-- Typed relationship between two decisions (`relationship_type`). -/
inductive RelationshipType
  | PRECEDENT
  | SIMILAR_CASE
  | CONTRADICTS
  | POLICY_EXCEPTION
deriving DecidableEq, Repr

abbrev DecisionId := Nat
abbrev ClientId := Nat
abbrev UserId := Nat
abbrev CompanyId := Nat
abbrev DealId := Nat

/-- A tenant of the platform (only the fields the decision engine reads). -/
structure Client where
  id : ClientId
  active : Bool
deriving DecidableEq, Repr

/-- `subject_companies` row; unique on `(clientId, externalId)`. -/
structure SubjectCompany where
  id : CompanyId
  clientId : ClientId
  externalId : String
  name : String
  domain : Option String
  industry : Option String
  country : Option String
  metadata : Option String
deriving DecidableEq, Repr

/-- `deals` row. -/
structure Deal where
  id : DealId
  subjectCompanyId : CompanyId
  crmDealId : Option String
  amount : Option Nat
  currency : Option String
  discountRequested : Option Nat
deriving DecidableEq, Repr

/-- `decisions` row. -/
structure Decision where
  id : DecisionId
  clientId : ClientId
  subjectCompanyId : CompanyId
  dealId : Option DealId
  decisionType : DecisionType
  status : DecisionStatus
  recommendedAction : Option String
  recommendedConfidence : Option DecisionConfidence
  finalAction : Option String
  decidedBy : Option UserId
  createdAt : Nat
  decidedAt : Option Nat
deriving DecidableEq, Repr

/-- `decision_context_snapshots` row; unique on `decisionId`. -/
structure ContextSnapshot where
  decisionId : DecisionId
  signals : String
  agentRationale : Option String
deriving DecidableEq, Repr

/-- `decision_human_overrides` row (append-only). -/
structure HumanOverride where
  decisionId : DecisionId
  userId : UserId
  overrideAction : OverrideAction
  overrideReason : Option String
deriving DecidableEq, Repr

/-- `decision_links` row; unique on `(from, to, relationshipType)`. -/
structure DecisionLink where
  fromDecisionId : DecisionId
  toDecisionId : DecisionId
  relationshipType : RelationshipType
  confidence : Option Nat
  notes : Option String
deriving DecidableEq, Repr

/-- The database state visible to the decision module.  `nextId` supplies
fresh primary keys (Prisma generates them). -/
structure DB where
  clients : List Client
  companies : List SubjectCompany
  deals : List Deal
  decisions : List Decision
  snapshots : List ContextSnapshot
  overrides : List HumanOverride
  links : List DecisionLink
  nextId : Nat
deriving DecidableEq, Repr

/-- Database-level failures surfaced by Prisma calls. -/
inductive DbError
  | recordNotFound
  | injectedFailure
deriving DecidableEq, Repr

/-- The `where` object of `findDecisionById`: always filters on `id`, and
additionally on `clientId` only when the supplied scope is truthy
(`if (clientId) where.clientId = clientId`). -/
def decisionMatches (decisionId : DecisionId) (clientId : Option ClientId)
    (d : Decision) : Bool :=
  match clientId with
  | none => d.id == decisionId
  | some c =>
    if natTruthy c then d.id == decisionId && d.clientId == c
    else d.id == decisionId

/-- `findDecisionById(decisionId, clientId?)`: `findFirst` over the
decisions table with the optional tenant filter. -/
def findDecisionById (db : DB) (decisionId : DecisionId)
    (clientId : Option ClientId) : Option Decision :=
  db.decisions.find? (decisionMatches decisionId clientId)

/-- Payload of the review-time decision update (`DecisionUpdateData`). -/
structure DecisionUpdateData where
  status : DecisionStatus
  finalAction : Option String
  decidedBy : Option UserId
  decidedAt : Nat
deriving DecidableEq, Repr

/-- `updateDecisionStatus`: one `$transaction` that updates the decision
row and, when the new status is `OVERRIDDEN` and both an acting user and
a reason are (truthily) present, appends a human-override row.
`injectFailure` forces the transaction to fail after the status update;
an error result commits nothing (Prisma rollback). -/
def updateDecisionStatus (db : DB) (decisionId : DecisionId)
    (data : DecisionUpdateData) (overrideReason : Option String)
    (overrideUserId : Option UserId) (injectFailure : Bool) :
    Except DbError (DB × Decision) :=
  match db.decisions.find? (fun d => d.id == decisionId) with
  | none => .error .recordNotFound
  | some d =>
    let d2 : Decision :=
      { d with
        status := data.status
        finalAction := data.finalAction
        decidedBy := data.decidedBy
        decidedAt := some data.decidedAt }
    let db1 : DB :=
      { db with
        decisions := db.decisions.map fun x => if x.id == decisionId then d2 else x }
    if injectFailure then .error .injectedFailure
    else
      let needsOverride :=
        data.status == .OVERRIDDEN
          && (match overrideUserId with
              | some u => natTruthy u
              | none => false)
          && strTruthy overrideReason
      let newOverrides : List HumanOverride :=
        if needsOverride then
          db1.overrides ++
            [{ decisionId := decisionId
               userId := overrideUserId.getD 0
               overrideAction := .MODIFIED
               overrideReason := overrideReason }]
        else db1.overrides
      .ok ({ db1 with overrides := newOverrides }, d2)

/-- Input shape of `findOrCreateSubjectCompany`'s `companyData`. -/
structure SubjectCompanyInput where
  externalId : String
  name : String
  domain : Option String
  industry : Option String
  country : Option String
  metadata : Option String
deriving DecidableEq, Repr

/-- `findOrCreateSubjectCompany`: Prisma `upsert` keyed on the
`(clientId, externalId)` unique constraint.  In the update branch a
field set to `undefined` (`x || undefined`) is left unchanged; in the
create branch `x || null` stores an absent value. -/
def findOrCreateSubjectCompany (db : DB) (clientId : ClientId)
    (companyData : SubjectCompanyInput) : DB × SubjectCompany :=
  let keyPred : SubjectCompany → Bool := fun r =>
    r.clientId == clientId && r.externalId == companyData.externalId
  match db.companies.find? keyPred with
  | some existing =>
    let updated : SubjectCompany :=
      { existing with
        name := companyData.name
        domain := if strTruthy companyData.domain then companyData.domain else existing.domain
        industry := if strTruthy companyData.industry then companyData.industry else existing.industry
        country := if strTruthy companyData.country then companyData.country else existing.country
        metadata := if strTruthy companyData.metadata then companyData.metadata else existing.metadata }
    ({ db with companies := db.companies.map fun r => if keyPred r then updated else r },
      updated)
  | none =>
    let created : SubjectCompany :=
      { id := db.nextId
        clientId := clientId
        externalId := companyData.externalId
        name := companyData.name
        domain := presentOpt companyData.domain
        industry := presentOpt companyData.industry
        country := presentOpt companyData.country
        metadata := if strTruthy companyData.metadata then companyData.metadata else none }
    ({ db with
        companies := db.companies ++ [created]
        nextId := db.nextId + 1 },
      created)

/-- The row inserted by the create branch of the upsert (named for the
statements below; definitionally the branch of
`findOrCreateSubjectCompany`). -/
def subjectCompanyCreateRow (db : DB) (clientId : ClientId)
    (companyData : SubjectCompanyInput) : SubjectCompany :=
  { id := db.nextId
    clientId := clientId
    externalId := companyData.externalId
    name := companyData.name
    domain := presentOpt companyData.domain
    industry := presentOpt companyData.industry
    country := presentOpt companyData.country
    metadata := if strTruthy companyData.metadata then companyData.metadata else none }

/-- The row produced by the update branch of the upsert applied to an
existing row (named for the statements below; definitionally the branch
of `findOrCreateSubjectCompany`). -/
def subjectCompanyUpdateRow (existing : SubjectCompany)
    (companyData : SubjectCompanyInput) : SubjectCompany :=
  { existing with
    name := companyData.name
    domain := if strTruthy companyData.domain then companyData.domain else existing.domain
    industry := if strTruthy companyData.industry then companyData.industry else existing.industry
    country := if strTruthy companyData.country then companyData.country else existing.country
    metadata := if strTruthy companyData.metadata then companyData.metadata else existing.metadata }

/-- Input shape of `findOrCreateDeal`'s `dealData`. -/
structure DealInput where
  crm_deal_id : Option String
  amount : Option Nat
  currency : Option String
  discount_requested : Option Nat
deriving DecidableEq, Repr

/-- `findOrCreateDeal`: returns null without a payload; with a CRM deal id
first looks for an existing deal on the company, otherwise always creates
a new row. -/
def findOrCreateDeal (db : DB) (subjectCompanyId : CompanyId)
    (dealData : Option DealInput) : DB × Option Deal :=
  match dealData with
  | none => (db, none)
  | some dd =>
    let existing : Option Deal :=
      if strTruthy dd.crm_deal_id then
        db.deals.find? fun d =>
          d.subjectCompanyId == subjectCompanyId && d.crmDealId == dd.crm_deal_id
      else none
    match existing with
    | some d => (db, some d)
    | none =>
      let created : Deal :=
        { id := db.nextId
          subjectCompanyId := subjectCompanyId
          crmDealId := presentOpt dd.crm_deal_id
          amount := match dd.amount with
            | some a => if a == 0 then none else some a
            | none => none
          currency := presentOpt dd.currency
          discountRequested := match dd.discount_requested with
            | some a => if a == 0 then none else some a
            | none => none }
      ({ db with deals := db.deals ++ [created], nextId := db.nextId + 1 },
        some created)

/-- Snapshot part of `DecisionCreateData.contextSnapshot`. -/
structure SnapshotInput where
  signals : String
  agentRationale : Option String
deriving DecidableEq, Repr

/-- `DecisionCreateData`: the payload persisted by `createDecision`. -/
structure DecisionCreateData where
  clientId : ClientId
  subjectCompanyId : CompanyId
  dealId : Option DealId
  decisionType : DecisionType
  recommendedAction : Option String
  recommendedConfidence : Option DecisionConfidence
  contextSnapshot : SnapshotInput
deriving DecidableEq, Repr

/-- `createDecision`: one create that persists the decision with
`status: 'PROPOSED'` together with its nested context snapshot
(`contextSnapshot: { create: ... }`), atomically. -/
def createDecision (db : DB) (data : DecisionCreateData) (now : Nat) :
    DB × Decision :=
  let d : Decision :=
    { id := db.nextId
      clientId := data.clientId
      subjectCompanyId := data.subjectCompanyId
      dealId := data.dealId
      decisionType := data.decisionType
      status := .PROPOSED
      recommendedAction := data.recommendedAction
      recommendedConfidence := data.recommendedConfidence
      finalAction := none
      decidedBy := none
      createdAt := now
      decidedAt := none }
  let snap : ContextSnapshot :=
    { decisionId := d.id
      signals := data.contextSnapshot.signals
      agentRationale := presentOpt data.contextSnapshot.agentRationale }
  ({ db with
      decisions := db.decisions ++ [d]
      snapshots := db.snapshots ++ [snap]
      nextId := db.nextId + 1 },
    d)

/-- Failure modes of `prisma.decisionLink.create`. -/
inductive CreateLinkError
  | foreignKeyViolation
  | uniqueViolation
deriving DecidableEq, Repr

/-- `prisma.decisionLink.create`: fails on a missing endpoint decision
(foreign key) or on a duplicate `(from, to, relationshipType)` triple
(unique constraint); otherwise inserts the link row. -/
def decisionLinkCreate (db : DB) (fromDecisionId toDecisionId : DecisionId)
    (relationshipType : RelationshipType) (confidence : Option Nat)
    (notes : Option String) : Except CreateLinkError (DB × DecisionLink) :=
  if !(db.decisions.any fun d => d.id == fromDecisionId) then
    .error .foreignKeyViolation
  else if !(db.decisions.any fun d => d.id == toDecisionId) then
    .error .foreignKeyViolation
  else if db.links.any (fun l =>
      l.fromDecisionId == fromDecisionId && l.toDecisionId == toDecisionId
        && l.relationshipType == relationshipType) then
    .error .uniqueViolation
  else
    let l : DecisionLink :=
      { fromDecisionId := fromDecisionId
        toDecisionId := toDecisionId
        relationshipType := relationshipType
        confidence := confidence
        notes := notes }
    .ok ({ db with links := db.links ++ [l] }, l)

/-- `linkDecisions`: wraps the create in a try/catch whose catch-all
swallows the error, logs at debug level and returns null. -/
def linkDecisions (db : DB) (fromDecisionId toDecisionId : DecisionId)
    (relationshipType : RelationshipType) (confidence : Option Nat)
    (notes : Option String) : DB × Option DecisionLink :=
  match decisionLinkCreate db fromDecisionId toDecisionId relationshipType
      confidence notes with
  | .ok (db2, l) => (db2, some l)
  | .error _ => (db, none)

/-- The recommendation value enum of `DecisionRecommendation`. -/
inductive RecAction
  | approve
  | approve_with_conditions
  | reject
  | review_manually
deriving DecidableEq, Repr

/-- The confidence enum of `DecisionRecommendation`. -/
inductive RecConfidence
  | low
  | medium
  | high
deriving DecidableEq, Repr

/-- Shape of the agent's output (`DecisionRecommendation`). -/
structure DecisionRecommendation where
  recommendation : RecAction
  confidence : RecConfidence
  rationale : List String
  suggested_conditions : Option (List String)
deriving DecidableEq, Repr

/-- The AI credentials read from the process environment. -/
structure Env where
  OPENAI_API_KEY : Option String
  ANTHROPIC_API_KEY : Option String
deriving DecidableEq, Repr

/-- `getFallbackRecommendation`: the safe manual-review recommendation
used whenever the AI provider is unavailable or errors. -/
def getFallbackRecommendation (facts : List String) : DecisionRecommendation :=
  { recommendation := .review_manually
    confidence := .low
    rationale :=
      if facts.length > 0 then
        "Insufficient AI service availability. Manual review required." :: facts
      else
        ["Insufficient information available. Manual review required."]
    suggested_conditions := none }

/-- `generateDecisionRecommendation`: without any configured AI key it
returns the not-configured fallback; with an OpenAI key it calls the
provider (modelled by the `openAiCall` oracle) and catches any thrown
error into `getFallbackRecommendation`; with only an Anthropic key it
returns `getFallbackRecommendation` (integration not implemented).  The
function is total: no recommender failure escapes it. -/
def generateDecisionRecommendation (env : Env) (facts : List String)
    (openAiCall : Except String DecisionRecommendation) :
    DecisionRecommendation :=
  if !strTruthy env.OPENAI_API_KEY && !strTruthy env.ANTHROPIC_API_KEY then
    { recommendation := .review_manually
      confidence := .low
      rationale := ["AI service not configured. Manual review required."]
      suggested_conditions := none }
  else if strTruthy env.OPENAI_API_KEY then
    match openAiCall with
    | .ok r => r
    | .error _ => getFallbackRecommendation facts
  else
    getFallbackRecommendation facts

/-- Step 5 of creation: the recommendation value persisted as a string. -/
def recActionToString : RecAction → String
  | .approve => "approve"
  | .approve_with_conditions => "approve_with_conditions"
  | .reject => "reject"
  | .review_manually => "review_manually"

/-- Step 5 of creation: `recommendation.confidence.toUpperCase()`. -/
def confidenceToUpper : RecConfidence → DecisionConfidence
  | .low => .LOW
  | .medium => .MEDIUM
  | .high => .HIGH

/-- `CreateDecisionInput` for the decision-creation service. -/
structure CreateDecisionInput where
  client_id : ClientId
  subject_company : SubjectCompanyInput
  deal : Option DealInput
  decision_type : DecisionType
deriving DecidableEq, Repr

/-- `processDecisionCreation`: resolve the subject company, resolve the
optional deal, gather context (external; its signal bundle enters as the
opaque `signals` argument and its extracted facts as `facts`), generate
the recommendation, then persist decision plus snapshot.  Returns the
new state and the created decision row. -/
def processDecisionCreation (db : DB) (input : CreateDecisionInput)
    (signals : String) (facts : List String) (env : Env)
    (openAiCall : Except String DecisionRecommendation) (now : Nat) :
    DB × Decision :=
  let resolved := findOrCreateSubjectCompany db input.client_id input.subject_company
  let db1 := resolved.1
  let company := resolved.2
  let dealRes := findOrCreateDeal db1 company.id input.deal
  let db2 := dealRes.1
  let deal := dealRes.2
  let recommendation := generateDecisionRecommendation env facts openAiCall
  let decisionData : DecisionCreateData :=
    { clientId := input.client_id
      subjectCompanyId := company.id
      dealId := deal.map (·.id)
      decisionType := input.decision_type
      recommendedAction := some (recActionToString recommendation.recommendation)
      recommendedConfidence := some (confidenceToUpper recommendation.confidence)
      contextSnapshot :=
        { signals := signals
          agentRationale := some (String.intercalate "\n" recommendation.rationale) } }
  createDecision db2 decisionData now

/-- The review action enum accepted by the validation schema
(`z.enum(["approve", "reject", "override", "escalate"])`). -/
inductive ReviewAction
  | approve
  | reject
  | override
  | escalate
deriving DecidableEq, Repr

/-- `ReviewDecisionInput`. -/
structure ReviewDecisionInput where
  action : ReviewAction
  note : Option String
  final_action : Option String
deriving DecidableEq, Repr

/-- Service-level failures of the decisions module. -/
inductive ServiceError
  | decisionNotFound
  | invalidAction (a : ReviewAction)
  | clientNotFound
  | clientInactive
  | internalError
deriving DecidableEq, Repr

/-- `processDecisionReview`: fetch the decision (error when absent), map
the action through the `switch` — `approve` → `APPROVED` with
`recommendedAction || 'approved'`, `reject` → `REJECTED` with
`'rejected'`, `override` → `OVERRIDDEN` with `final_action || 'overridden'`,
anything else (including `escalate`, which has no case) throws
`Invalid action` — then run the update transaction and re-fetch.
No check of the current status is made before applying the transition. -/
def processDecisionReview (db : DB) (decisionId : DecisionId)
    (userId : UserId) (input : ReviewDecisionInput) (now : Nat) :
    Except ServiceError (DB × Decision) :=
  match findDecisionById db decisionId none with
  | none => .error .decisionNotFound
  | some existingDecision =>
    let statusAndFinal : Option (DecisionStatus × String) :=
      match input.action with
      | .approve => some (.APPROVED, strOr existingDecision.recommendedAction "approved")
      | .reject => some (.REJECTED, "rejected")
      | .override => some (.OVERRIDDEN, strOr input.final_action "overridden")
      | .escalate => none
    match statusAndFinal with
    | none => .error (.invalidAction input.action)
    | some (status, finalAction) =>
      let updateData : DecisionUpdateData :=
        { status := status
          finalAction := some finalAction
          decidedBy := some userId
          decidedAt := now }
      match updateDecisionStatus db decisionId updateData input.note
          (if input.action == .override then some userId else none) false with
      | .error _ => .error .internalError
      | .ok (db2, _) =>
        match findDecisionById db2 decisionId none with
        | none => .error .internalError
        | some updatedDecision => .ok (db2, updatedDecision)

/-- `getDecisionById(decisionId, clientId?)`: read-only fetch with the
optional client scope; null propagates as not-found. -/
def getDecisionById (db : DB) (decisionId : DecisionId)
    (clientId : Option ClientId) : Option Decision :=
  findDecisionById db decisionId clientId

/-- Raw review request body before schema validation. -/
structure RawReviewBody where
  action : String
  note : Option String
  final_action : Option String
deriving DecidableEq, Repr

/-- The `reviewDecisionSchema` action enum: any other string is a
`ZodError`. -/
def parseReviewAction : String → Option ReviewAction
  | "approve" => some .approve
  | "reject" => some .reject
  | "override" => some .override
  | "escalate" => some .escalate
  | _ => none

/-- `reviewDecisionHandler` (status code view): `400` on schema failure,
`200` with the updated decision on success, `404` on `Decision not
found`; any other thrown error is re-thrown to the error middleware,
which answers `500` for a plain `Error`. -/
def reviewDecisionHandler (db : DB) (decisionId : DecisionId)
    (userId : UserId) (raw : RawReviewBody) (now : Nat) : DB × Nat :=
  match parseReviewAction raw.action with
  | none => (db, 400)
  | some a =>
    match processDecisionReview db decisionId userId
        { action := a, note := raw.note, final_action := raw.final_action } now with
    | .ok (db2, _) => (db2, 200)
    | .error .decisionNotFound => (db, 404)
    | .error _ => (db, 500)

/-- `const clientId = c.get("clientId") || body.client_id`. -/
def resolveCreationClientId (authClientId : Option ClientId)
    (bodyClientId : ClientId) : ClientId :=
  match authClientId with
  | some c => if natTruthy c then c else bodyClientId
  | none => bodyClientId

/-- Modelled from the spec: the client-existence and activity check that
decision creation performs before touching the state machine — the
service code implementing it is not under `src/` (only the HTTP handler
that maps its `Client not found` / `Client account is inactive` errors
to `404`/`403` is).  Per the spec, `POST /decisions` answers "`404`/`403`
if the resolved client is missing/inactive" and creation does not
proceed. -/
def validateClientForDecision (db : DB) (clientId : ClientId) :
    Except ServiceError Unit :=
  match db.clients.find? (fun cl => cl.id == clientId) with
  | none => .error .clientNotFound
  | some cl => if cl.active then .ok () else .error .clientInactive

/-- Decision creation behind the client gate: validate the resolved
client, then run `processDecisionCreation`. -/
def processDecisionCreationScoped (db : DB) (input : CreateDecisionInput)
    (signals : String) (facts : List String) (env : Env)
    (openAiCall : Except String DecisionRecommendation) (now : Nat) :
    Except ServiceError (DB × Decision) :=
  match validateClientForDecision db input.client_id with
  | .error e => .error e
  | .ok _ => .ok (processDecisionCreation db input signals facts env openAiCall now)

/-- `createDecisionHandler` (status code view): resolves the client scope
(`c.get("clientId") || body.client_id`), runs creation, answers `201` on
success, `404` on `Client not found`, `403` on `Client account is
inactive`. -/
def createDecisionHandler (db : DB) (authClientId : Option ClientId)
    (body : CreateDecisionInput) (signals : String) (facts : List String)
    (env : Env) (openAiCall : Except String DecisionRecommendation)
    (now : Nat) : DB × Nat :=
  let clientId := resolveCreationClientId authClientId body.client_id
  match processDecisionCreationScoped db { body with client_id := clientId }
      signals facts env openAiCall now with
  | .ok (db2, _) => (db2, 201)
  | .error .clientNotFound => (db, 404)
  | .error .clientInactive => (db, 403)
  | .error _ => (db, 500)

/-- `getDecisionHandler` (status code view): `404` when the scoped fetch
returns null, `200` otherwise. -/
def getDecisionHandler (db : DB) (decisionId : DecisionId)
    (authClientId : Option ClientId) : Nat :=
  match getDecisionById db decisionId authClientId with
  | none => 404
  | some _ => 200

/-- Number of human-override rows attached to a decision. -/
def countOverridesFor (db : DB) (decisionId : DecisionId) : Nat :=
  (db.overrides.filter fun o => o.decisionId == decisionId).length

/-- Number of link rows with a given `(from, to, relationshipType)` key. -/
def countLinks (db : DB) (fromDecisionId toDecisionId : DecisionId)
    (relationshipType : RelationshipType) : Nat :=
  (db.links.filter fun l =>
    l.fromDecisionId == fromDecisionId && l.toDecisionId == toDecisionId
      && l.relationshipType == relationshipType).length

/-- Number of subject-company rows with a given `(clientId, externalId)`
identity. -/
def countCompaniesFor (db : DB) (clientId : ClientId) (externalId : String) :
    Nat :=
  (db.companies.filter fun r =>
    r.clientId == clientId && r.externalId == externalId).length

/-! Concrete fixtures used by witnesses and counterexamples. -/

/-- An active client with id 1. -/
def sampleClient : Client := { id := 1, active := true }

/-- An inactive client with id 2. -/
def inactiveClient : Client := { id := 2, active := false }

/-- A subject company of client 1. -/
def sampleCompany : SubjectCompany :=
  { id := 10, clientId := 1, externalId := "acme-1", name := "Acme"
    domain := none, industry := none, country := none, metadata := none }

/-- A freshly proposed decision of client 1. -/
def sampleDecision : Decision :=
  { id := 1, clientId := 1, subjectCompanyId := 10, dealId := none
    decisionType := .DISCOUNT, status := .PROPOSED
    recommendedAction := some "approve", recommendedConfidence := some .MEDIUM
    finalAction := none, decidedBy := none, createdAt := 50, decidedAt := none }

/-- An already approved decision of client 1 (id 2). -/
def approvedDecision : Decision :=
  { sampleDecision with
    id := 2
    status := .APPROVED
    finalAction := some "approve"
    decidedBy := some 7
    decidedAt := some 60 }

/-- A decision owned by client 2 (id 3). -/
def otherClientDecision : Decision :=
  { sampleDecision with id := 3, clientId := 2 }

/-- A concrete decision-creation request for client 1. -/
def sampleCreateInput : CreateDecisionInput :=
  { client_id := 1
    subject_company :=
      { externalId := "acme-1", name := "Acme", domain := none
        industry := none, country := none, metadata := none }
    deal := none
    decision_type := .DISCOUNT }

/-- First resolver call payload for the idempotence scenario. -/
def resolverInput1 : SubjectCompanyInput :=
  { externalId := "n-1", name := "N", domain := some "n.com"
    industry := some "saas", country := none, metadata := none }

/-- Second resolver call payload: new name/industry/country, blank
domain, same identity. -/
def resolverInput2 : SubjectCompanyInput :=
  { externalId := "n-1", name := "N2", domain := some ""
    industry := some "fintech", country := some "US", metadata := none }

/-- Base database state for the concrete scenarios. -/
def sampleDb : DB :=
  { clients := [sampleClient, inactiveClient]
    companies := [sampleCompany]
    deals := []
    decisions := [sampleDecision, approvedDecision, otherClientDecision]
    snapshots := [{ decisionId := 1, signals := "{}", agentRationale := none }]
    overrides := []
    links := []
    nextId := 100 }

/-! Helper lemmas. -/

/-- Without a client scope, `findDecisionById` filters on the id alone. -/
theorem findDecisionById_no_scope (db : DB) (decisionId : DecisionId) :
    findDecisionById db decisionId none
      = db.decisions.find? (fun d => d.id == decisionId) := rfl

/-- `find?` skips a prefix on which the predicate fails everywhere. -/
theorem find?_append_left_none {α : Type} (l1 l2 : List α) (p : α → Bool)
    (h : l1.find? p = none) : (l1 ++ l2).find? p = l2.find? p := by
  rw [List.find?_append, h, Option.none_or]

/-- Replacing the id-matched row makes `find?` by that id return the
replacement, provided the original list finds a row with that id. -/
theorem find?_map_replace (l : List Decision) (decisionId : DecisionId)
    (d d2 : Decision) (h : l.find? (fun x => x.id == decisionId) = some d)
    (hid : d2.id = decisionId) :
    (l.map fun x => if x.id == decisionId then d2 else x).find?
        (fun x => x.id == decisionId) = some d2 := by
  induction l with
  | nil => simp [List.find?] at h
  | cons a as ih =>
    by_cases ha : (a.id == decisionId) = true
    · simp [List.find?, ha, hid]
    · rw [List.find?_cons_of_neg _ (by simp [ha])] at h
      simpa [List.find?, ha] using ih h

/-- Unfolding of the review transaction when the decision row exists and
no failure is injected: the decision row is replaced and the override row
appended exactly when the status is `OVERRIDDEN` with a truthy acting
user and reason. -/
theorem updateDecisionStatus_spec (db : DB) (decisionId : DecisionId)
    (data : DecisionUpdateData) (reason : Option String)
    (uid : Option UserId) (d : Decision)
    (hfind : db.decisions.find? (fun x => x.id == decisionId) = some d) :
    updateDecisionStatus db decisionId data reason uid false =
      .ok ({ db with
              decisions := db.decisions.map fun x =>
                if x.id == decisionId then
                  { d with
                    status := data.status
                    finalAction := data.finalAction
                    decidedBy := data.decidedBy
                    decidedAt := some data.decidedAt }
                else x
              overrides :=
                if data.status == .OVERRIDDEN
                    && (match uid with
                        | some u => natTruthy u
                        | none => false)
                    && strTruthy reason then
                  db.overrides ++
                    [{ decisionId := decisionId
                       userId := uid.getD 0
                       overrideAction := .MODIFIED
                       overrideReason := reason }]
                else db.overrides },
            { d with
              status := data.status
              finalAction := data.finalAction
              decidedBy := data.decidedBy
              decidedAt := some data.decidedAt }) := by
  unfold updateDecisionStatus
  rw [hfind]
  rfl

/-! Claim theorems. -/

/-- C1: the review `switch` has no `escalate` case, although the
validation schema accepts the action and the status enum has
`ESCALATED`.  On an existing decision, `action = "escalate"` passes
schema validation, `processDecisionReview` throws `Invalid action`, and
the handler re-throws it to the error middleware, which answers `500`
with the database unchanged — not the documented `200` with status
`ESCALATED` and finalAction `"escalated"`. -/
theorem escalate_review_throws_invalid_action :
    processDecisionReview sampleDb 1 7
        { action := .escalate, note := none, final_action := none } 100
      = .error (.invalidAction .escalate)
    ∧ reviewDecisionHandler sampleDb 1 7
        { action := "escalate", note := none, final_action := none } 100
      = (sampleDb, 500) := by
  exact ⟨rfl, by decide⟩

/-- C2 counterexample: reviewing decision 1 with action `override` and no
note updates the status to `OVERRIDDEN` yet appends zero human-override
rows — the override row is written only when both an acting user and a
note are (truthily) present, so "any optional note" is false. -/
theorem override_without_note_records_no_override_row :
    (processDecisionReview sampleDb 1 7
        { action := .override, note := none, final_action := some "approved 20%" }
        100).toOption.map (fun p => ((p.2).status, countOverridesFor p.1 1))
      = some (.OVERRIDDEN, 0) := by decide

/-- C9: `linkDecisions` wraps the insert in a catch-all, so every create
failure — duplicate key or a foreign-key violation from a nonexistent
endpoint decision — is swallowed and surfaced as a null result with the
database unchanged, never as a propagated error. -/
theorem linkDecisions_swallows_all_errors (db : DB)
    (fromDecisionId toDecisionId : DecisionId)
    (relationshipType : RelationshipType) (confidence : Option Nat)
    (notes : Option String) (e : CreateLinkError)
    (h : decisionLinkCreate db fromDecisionId toDecisionId relationshipType
        confidence notes = .error e) :
    linkDecisions db fromDecisionId toDecisionId relationshipType
        confidence notes = (db, none) := by
  unfold linkDecisions
  rw [h]

/-- Witness for C9: linking to the nonexistent decision id 999 violates
the foreign key, and the call still returns null with the state intact. -/
theorem linkDecisions_swallows_all_errors_witness :
    linkDecisions sampleDb 1 999 .PRECEDENT none none = (sampleDb, none) :=
  linkDecisions_swallows_all_errors sampleDb 1 999 .PRECEDENT none none
    .foreignKeyViolation rfl

/-- C10: with no client scope (absent, or falsy as for master-API-key
callers), `findDecisionById` builds a `where` with no tenant filter: the
lookup degenerates to a bare-id search, so a decision belonging to any
client is returned by its id. -/
theorem no_client_scope_skips_tenant_filter (db : DB)
    (decisionId : DecisionId) (clientId : Option ClientId)
    (hFalsy : clientId = none ∨ clientId = some 0) (d : Decision)
    (hmem : d ∈ db.decisions) (hid : d.id = decisionId) :
    getDecisionById db decisionId clientId
        = db.decisions.find? (fun x => x.id == decisionId)
    ∧ (getDecisionById db decisionId clientId).isSome := by
  have hbase : getDecisionById db decisionId clientId
      = db.decisions.find? (fun x => x.id == decisionId) := by
    rcases hFalsy with h | h <;> subst h <;> rfl
  refine ⟨hbase, ?_⟩
  rw [hbase, List.find?_isSome]
  exact ⟨d, hmem, by simp [hid]⟩

/-- Witness for C10: the decision owned by client 2 is returned when the
caller's scope is the falsy id 0. -/
theorem no_client_scope_skips_tenant_filter_witness :
    getDecisionById sampleDb 3 (some 0)
        = sampleDb.decisions.find? (fun x => x.id == 3)
    ∧ (getDecisionById sampleDb 3 (some 0)).isSome :=
  no_client_scope_skips_tenant_filter sampleDb 3 (some 0) (Or.inr rfl)
    otherClientDecision (by decide) rfl

/-- C5: tenant isolation of the scoped read.  For any real (nonzero)
client scope `clientA`, a decision whose id exists but whose rows all
belong to a different client `clientB` resolves as not-found. -/
theorem tenant_isolation_cross_client_not_found (db : DB)
    (decisionId : DecisionId) (clientA clientB : ClientId)
    (hA : clientA ≠ 0) (hAB : clientB ≠ clientA)
    (hOwner : ∀ d ∈ db.decisions, d.id = decisionId → d.clientId = clientB) :
    getDecisionById db decisionId (some clientA) = none := by
  unfold getDecisionById findDecisionById
  rw [List.find?_eq_none]
  intro d hmem
  have hcA : natTruthy clientA = true := by simp [natTruthy, hA]
  simp only [decisionMatches, hcA, if_true, Bool.and_eq_true, beq_iff_eq, not_and]
  intro hidEq hclEq
  exact hAB ((hOwner d hmem hidEq).symm.trans hclEq)

/-- Witness for C5: decision 3 belongs to client 2; fetching it with the
scope of client 1 yields not-found even though the id exists. -/
theorem tenant_isolation_cross_client_not_found_witness :
    getDecisionById sampleDb 3 (some 1) = none :=
  tenant_isolation_cross_client_not_found sampleDb 3 1 2 (by decide)
    (by decide) (by decide)

/-- The review transition table of spec §4.4: resulting status per
action.  Stated from the spec's words, for comparison against the
embedded service. -/
def reviewStatusTable : ReviewAction → DecisionStatus
  | .approve => .APPROVED
  | .reject => .REJECTED
  | .override => .OVERRIDDEN
  | .escalate => .ESCALATED

/-- C7: `processDecisionReview` applies the transition table to every
existing decision regardless of its current status — terminal statuses
included, since no guard checks that the status is still `PROPOSED`.
The returned decision is the row re-fetched from the updated state, so
a second review call can flip an `APPROVED` decision to `REJECTED`. -/
theorem review_transition_ignores_current_status
    (db : DB) (decisionId : DecisionId) (userId : UserId)
    (input : ReviewDecisionInput) (now : Nat) (d : Decision)
    (hFind : findDecisionById db decisionId none = some d)
    (hAct : input.action ≠ .escalate) :
    (processDecisionReview db decisionId userId input now).toOption.map
        (fun p => (p.2).status)
      = some (reviewStatusTable input.action) := by
  have hfind0 : db.decisions.find? (fun x => x.id == decisionId) = some d := hFind
  have hdid : (d.id == decisionId) = true := by
    have := List.find?_some hfind0
    simpa using this
  obtain ⟨action, note, fa⟩ := input
  cases action with
  | escalate => exact absurd rfl hAct
  | approve =>
    simp only [processDecisionReview, hFind]
    rw [if_neg (by decide : ¬((ReviewAction.approve == ReviewAction.override) = true)),
      updateDecisionStatus_spec db decisionId _ note none d hfind0]
    simp only []
    rw [findDecisionById_no_scope,
      find?_map_replace _ _ d _ hfind0 (by simpa using hdid)]
    rfl
  | reject =>
    simp only [processDecisionReview, hFind]
    rw [if_neg (by decide : ¬((ReviewAction.reject == ReviewAction.override) = true)),
      updateDecisionStatus_spec db decisionId _ note none d hfind0]
    simp only []
    rw [findDecisionById_no_scope,
      find?_map_replace _ _ d _ hfind0 (by simpa using hdid)]
    rfl
  | override =>
    simp only [processDecisionReview, hFind]
    rw [if_pos (by decide : (ReviewAction.override == ReviewAction.override) = true),
      updateDecisionStatus_spec db decisionId _ note (some userId) d hfind0]
    simp only []
    rw [findDecisionById_no_scope,
      find?_map_replace _ _ d _ hfind0 (by simpa using hdid)]
    rfl

/-- Witness for C7: reviewing the already-`APPROVED` decision 2 with
action `reject` silently flips it to `REJECTED`. -/
theorem review_transition_ignores_current_status_witness :
    (processDecisionReview sampleDb 2 7
        { action := .reject, note := none, final_action := none } 100).toOption.map
        (fun p => (p.2).status)
      = some DecisionStatus.REJECTED :=
  review_transition_ignores_current_status sampleDb 2 7
    { action := .reject, note := none, final_action := none } 100
    approvedDecision (by decide) (by decide)

/-- C2 (amended): reviewing with action `override` and a non-blank note
and a truthy acting user yields status `OVERRIDDEN` together with
exactly one appended human-override row carrying the matching decision
id and the note as reason; and the review transaction is atomic — a
failure forced after the status update commits neither change (the
error result carries no state). -/
theorem override_with_note_is_atomic
    (db : DB) (decisionId : DecisionId) (userId : UserId)
    (note : String) (fa : Option String) (now : Nat) (d : Decision)
    (hFind : findDecisionById db decisionId none = some d)
    (hNote : note ≠ "") (hUser : userId ≠ 0) :
    (∃ db2 d2,
      processDecisionReview db decisionId userId
          { action := .override, note := some note, final_action := fa } now
        = .ok (db2, d2)
      ∧ d2.status = .OVERRIDDEN
      ∧ d2.finalAction = some (strOr fa "overridden")
      ∧ db2.overrides = db.overrides ++
          [{ decisionId := decisionId, userId := userId,
             overrideAction := .MODIFIED, overrideReason := some note }]
      ∧ countOverridesFor db2 decisionId = countOverridesFor db decisionId + 1)
    ∧ updateDecisionStatus db decisionId
        { status := .OVERRIDDEN, finalAction := some (strOr fa "overridden"),
          decidedBy := some userId, decidedAt := now }
        (some note) (some userId) true
      = .error .injectedFailure := by
  have hfind0 : db.decisions.find? (fun x => x.id == decisionId) = some d := hFind
  have hdid : (d.id == decisionId) = true := by
    have := List.find?_some hfind0
    simpa using this
  have hCond : ((DecisionStatus.OVERRIDDEN == DecisionStatus.OVERRIDDEN)
      && natTruthy userId && strTruthy (some note)) = true := by
    simp [natTruthy, strTruthy, hUser, hNote]
  constructor
  · simp only [processDecisionReview, hFind]
    rw [if_pos (by decide : (ReviewAction.override == ReviewAction.override) = true),
      updateDecisionStatus_spec db decisionId _ (some note) (some userId) d hfind0]
    simp only []
    rw [findDecisionById_no_scope,
      find?_map_replace _ _ d _ hfind0 (by simpa using hdid)]
    refine ⟨_, _, rfl, rfl, rfl, ?_, ?_⟩
    · simp only []
      rw [if_pos hCond]
      rfl
    · simp only [countOverridesFor]
      rw [if_pos hCond]
      simp [List.filter_append]
  · unfold updateDecisionStatus
    rw [hfind0]
    rfl

/-- Witness for C2: overriding decision 1 with the note `"strategic"`
appends exactly one override row, and the failure-injected transaction
commits nothing. -/
theorem override_with_note_is_atomic_witness :
    (∃ db2 d2,
      processDecisionReview sampleDb 1 7
          { action := .override, note := some "strategic",
            final_action := some "approved 20%" } 100
        = .ok (db2, d2)
      ∧ d2.status = .OVERRIDDEN
      ∧ d2.finalAction = some (strOr (some "approved 20%") "overridden")
      ∧ db2.overrides = sampleDb.overrides ++
          [{ decisionId := 1, userId := 7,
             overrideAction := .MODIFIED, overrideReason := some "strategic" }]
      ∧ countOverridesFor db2 1 = countOverridesFor sampleDb 1 + 1)
    ∧ updateDecisionStatus sampleDb 1
        { status := .OVERRIDDEN, finalAction := some (strOr (some "approved 20%") "overridden"),
          decidedBy := some 7, decidedAt := 100 }
        (some "strategic") (some 7) true
      = .error .injectedFailure :=
  override_with_note_is_atomic sampleDb 1 7 "strategic" (some "approved 20%")
    100 sampleDecision (by decide) (by decide) (by decide)

/-- When the recommender is unavailable (no OpenAI key, whatever the
Anthropic key) or its call throws, the agent returns a fallback whose
recommendation is `review_manually` with confidence `low`; being total,
it surfaces no error. -/
theorem generateDecisionRecommendation_fallback (env : Env)
    (facts : List String) (call : Except String DecisionRecommendation)
    (h : strTruthy env.OPENAI_API_KEY = false ∨ ∃ msg, call = Except.error msg) :
    (generateDecisionRecommendation env facts call).recommendation = .review_manually
    ∧ (generateDecisionRecommendation env facts call).confidence = .low := by
  unfold generateDecisionRecommendation
  rcases h with h | ⟨msg, h⟩
  · rw [h]
    by_cases ha : strTruthy env.ANTHROPIC_API_KEY
    · simp [ha, getFallbackRecommendation]
    · simp [ha]
  · rw [h]
    by_cases ho : strTruthy env.OPENAI_API_KEY
    · simp [ho, getFallbackRecommendation]
    · by_cases ha : strTruthy env.ANTHROPIC_API_KEY
      · simp [ho, ha, getFallbackRecommendation]
      · simp [ho, ha]

/-- C3: with the recommender unavailable (no AI key configured) or its
call failing, `processDecisionCreation` still completes and the
persisted decision has status `PROPOSED`, recommended action
`review_manually` and confidence `LOW`; the recommender failure is
absorbed (the pipeline is total), never surfaced to the caller. -/
theorem fallback_guarantee_on_recommender_failure
    (db : DB) (input : CreateDecisionInput) (signals : String)
    (facts : List String) (env : Env)
    (call : Except String DecisionRecommendation) (now : Nat)
    (h : strTruthy env.OPENAI_API_KEY = false ∨ ∃ msg, call = Except.error msg) :
    ((processDecisionCreation db input signals facts env call now).2.status = .PROPOSED)
    ∧ ((processDecisionCreation db input signals facts env call now).2.recommendedAction
        = some "review_manually")
    ∧ ((processDecisionCreation db input signals facts env call now).2.recommendedConfidence
        = some .LOW)
    ∧ (processDecisionCreation db input signals facts env call now).2
        ∈ (processDecisionCreation db input signals facts env call now).1.decisions := by
  obtain ⟨hrec, hconf⟩ := generateDecisionRecommendation_fallback env facts call h
  simp only [processDecisionCreation, createDecision]
  refine ⟨trivial, ?_, ?_, ?_⟩
  · simp [hrec, recActionToString]
  · simp [hconf, confidenceToUpper]
  · simp

/-- Witness for C3: creating a decision with no AI key configured
persists a `PROPOSED` decision with the manual-review fallback. -/
theorem fallback_guarantee_on_recommender_failure_witness :
    ((processDecisionCreation sampleDb sampleCreateInput "{}" []
        { OPENAI_API_KEY := none, ANTHROPIC_API_KEY := none }
        (.error "provider down") 100).2.status = .PROPOSED)
    ∧ ((processDecisionCreation sampleDb sampleCreateInput "{}" []
        { OPENAI_API_KEY := none, ANTHROPIC_API_KEY := none }
        (.error "provider down") 100).2.recommendedAction
        = some "review_manually")
    ∧ ((processDecisionCreation sampleDb sampleCreateInput "{}" []
        { OPENAI_API_KEY := none, ANTHROPIC_API_KEY := none }
        (.error "provider down") 100).2.recommendedConfidence
        = some .LOW)
    ∧ (processDecisionCreation sampleDb sampleCreateInput "{}" []
        { OPENAI_API_KEY := none, ANTHROPIC_API_KEY := none }
        (.error "provider down") 100).2
        ∈ (processDecisionCreation sampleDb sampleCreateInput "{}" []
            { OPENAI_API_KEY := none, ANTHROPIC_API_KEY := none }
            (.error "provider down") 100).1.decisions :=
  fallback_guarantee_on_recommender_failure sampleDb sampleCreateInput "{}" []
    { OPENAI_API_KEY := none, ANTHROPIC_API_KEY := none }
    (.error "provider down") 100 (Or.inl rfl)

/-- C4: `POST /decisions` with a resolved client that does not exist
answers `404`, and with an existing but inactive client answers `403`;
in both cases the handler returns the original state, so decision
creation does not proceed. -/
theorem create_decision_rejects_missing_or_inactive_client
    (db : DB) (auth : Option ClientId) (body : CreateDecisionInput)
    (signals : String) (facts : List String) (env : Env)
    (call : Except String DecisionRecommendation) (now : Nat) :
    (db.clients.find? (fun cl => cl.id == resolveCreationClientId auth body.client_id) = none →
      createDecisionHandler db auth body signals facts env call now = (db, 404))
    ∧ (∀ cl, db.clients.find?
          (fun c2 => c2.id == resolveCreationClientId auth body.client_id) = some cl →
        cl.active = false →
        createDecisionHandler db auth body signals facts env call now = (db, 403)) := by
  constructor
  · intro hnone
    simp only [createDecisionHandler, processDecisionCreationScoped,
      validateClientForDecision]
    rw [hnone]
  · intro cl hsome hinactive
    simp only [createDecisionHandler, processDecisionCreationScoped,
      validateClientForDecision]
    rw [hsome]
    simp only []
    rw [hinactive]
    rfl

/-- Witness for C4: the unknown client id 5 yields `404` and the
inactive client 2 yields `403`, both leaving the state untouched. -/
theorem create_decision_rejects_missing_or_inactive_client_witness :
    createDecisionHandler sampleDb none { sampleCreateInput with client_id := 5 }
        "{}" [] { OPENAI_API_KEY := none, ANTHROPIC_API_KEY := none }
        (.error "e") 100 = (sampleDb, 404)
    ∧ createDecisionHandler sampleDb none { sampleCreateInput with client_id := 2 }
        "{}" [] { OPENAI_API_KEY := none, ANTHROPIC_API_KEY := none }
        (.error "e") 100 = (sampleDb, 403) :=
  ⟨(create_decision_rejects_missing_or_inactive_client sampleDb none
      { sampleCreateInput with client_id := 5 } "{}" []
      { OPENAI_API_KEY := none, ANTHROPIC_API_KEY := none }
      (.error "e") 100).1 (by decide),
   (create_decision_rejects_missing_or_inactive_client sampleDb none
      { sampleCreateInput with client_id := 2 } "{}" []
      { OPENAI_API_KEY := none, ANTHROPIC_API_KEY := none }
      (.error "e") 100).2 inactiveClient (by decide) rfl⟩

/-- When no row matches the `(clientId, externalId)` key, the upsert
takes its create branch. -/
theorem findOrCreateSubjectCompany_create (db : DB) (clientId : ClientId)
    (cd : SubjectCompanyInput)
    (h0 : db.companies.find?
        (fun r => r.clientId == clientId && r.externalId == cd.externalId) = none) :
    findOrCreateSubjectCompany db clientId cd
      = ({ db with
            companies := db.companies ++ [subjectCompanyCreateRow db clientId cd]
            nextId := db.nextId + 1 },
          subjectCompanyCreateRow db clientId cd) := by
  simp only [findOrCreateSubjectCompany]
  rw [h0]
  rfl

/-- When a row matches the `(clientId, externalId)` key, the upsert
takes its update branch. -/
theorem findOrCreateSubjectCompany_update (db : DB) (clientId : ClientId)
    (cd : SubjectCompanyInput) (existing : SubjectCompany)
    (hfind : db.companies.find?
        (fun r => r.clientId == clientId && r.externalId == cd.externalId) = some existing) :
    findOrCreateSubjectCompany db clientId cd
      = ({ db with
            companies := db.companies.map fun r =>
              if r.clientId == clientId && r.externalId == cd.externalId then
                subjectCompanyUpdateRow existing cd
              else r },
          subjectCompanyUpdateRow existing cd) := by
  simp only [findOrCreateSubjectCompany]
  rw [hfind]
  rfl

/-- Replacing key-matched rows in a list on which the key predicate
fails everywhere leaves nothing for the key filter to select. -/
theorem filter_map_replace_none (l : List SubjectCompany)
    (p : SubjectCompany → Bool) (u : SubjectCompany)
    (h : ∀ x ∈ l, p x = false) :
    (l.map fun r => if p r then u else r).filter p = [] := by
  induction l with
  | nil => rfl
  | cons a as ih =>
    have ha := h a (List.mem_cons_self a as)
    rw [List.map_cons, if_neg (by simp [ha]), List.filter_cons_of_neg (by simp [ha])]
    exact ih fun x hx => h x (List.mem_cons_of_mem a hx)

/-- C6: resolving the same `(client, externalId)` twice (starting from a
state without that key) leaves exactly one row; its identity fields are
unchanged, its name reflects the second call, and each optional
attribute holds the second call's value when that value is truthy and
otherwise keeps the value stored by the first call — a blank or omitted
attribute never overwrites the stored value. -/
theorem entity_resolution_idempotent
    (db : DB) (clientId : ClientId) (in1 in2 : SubjectCompanyInput)
    (h0 : db.companies.find?
        (fun r => r.clientId == clientId && r.externalId == in1.externalId) = none)
    (hExt : in2.externalId = in1.externalId) :
    countCompaniesFor (findOrCreateSubjectCompany
        (findOrCreateSubjectCompany db clientId in1).1 clientId in2).1
        clientId in1.externalId = 1
    ∧ ((findOrCreateSubjectCompany
        (findOrCreateSubjectCompany db clientId in1).1 clientId in2).2).clientId
        = clientId
    ∧ ((findOrCreateSubjectCompany
        (findOrCreateSubjectCompany db clientId in1).1 clientId in2).2).externalId
        = in1.externalId
    ∧ ((findOrCreateSubjectCompany
        (findOrCreateSubjectCompany db clientId in1).1 clientId in2).2).name
        = in2.name
    ∧ ((findOrCreateSubjectCompany
        (findOrCreateSubjectCompany db clientId in1).1 clientId in2).2).domain
        = (if strTruthy in2.domain then in2.domain
           else ((findOrCreateSubjectCompany db clientId in1).2).domain)
    ∧ ((findOrCreateSubjectCompany
        (findOrCreateSubjectCompany db clientId in1).1 clientId in2).2).industry
        = (if strTruthy in2.industry then in2.industry
           else ((findOrCreateSubjectCompany db clientId in1).2).industry)
    ∧ ((findOrCreateSubjectCompany
        (findOrCreateSubjectCompany db clientId in1).1 clientId in2).2).country
        = (if strTruthy in2.country then in2.country
           else ((findOrCreateSubjectCompany db clientId in1).2).country)
    ∧ ((findOrCreateSubjectCompany
        (findOrCreateSubjectCompany db clientId in1).1 clientId in2).2).metadata
        = (if strTruthy in2.metadata then in2.metadata
           else ((findOrCreateSubjectCompany db clientId in1).2).metadata)
    ∧ (findOrCreateSubjectCompany
        (findOrCreateSubjectCompany db clientId in1).1 clientId in2).1.companies.filter
        (fun r => r.clientId == clientId && r.externalId == in1.externalId)
      = [(findOrCreateSubjectCompany
          (findOrCreateSubjectCompany db clientId in1).1 clientId in2).2] := by
  obtain ⟨e2, nm2, dm2, id2, ct2, md2⟩ := in2
  change e2 = in1.externalId at hExt
  subst hExt
  have hr1 := findOrCreateSubjectCompany_create db clientId in1 h0
  rw [hr1]
  have hprow1 : ((subjectCompanyCreateRow db clientId in1).clientId == clientId
      && (subjectCompanyCreateRow db clientId in1).externalId == in1.externalId) = true := by
    simp [subjectCompanyCreateRow]
  have hfind2 : (db.companies ++ [subjectCompanyCreateRow db clientId in1]).find?
      (fun r => r.clientId == clientId && r.externalId == in1.externalId)
      = some (subjectCompanyCreateRow db clientId in1) := by
    rw [find?_append_left_none _ _ _ h0]
    simp only [List.find?, hprow1]
  have hr2 := findOrCreateSubjectCompany_update
      { db with
        companies := db.companies ++ [subjectCompanyCreateRow db clientId in1]
        nextId := db.nextId + 1 }
      clientId
      { externalId := in1.externalId, name := nm2, domain := dm2
        industry := id2, country := ct2, metadata := md2 }
      (subjectCompanyCreateRow db clientId in1) hfind2
  rw [hr2]
  have hforall := List.find?_eq_none.mp h0
  have hfilter : ((db.companies ++ [subjectCompanyCreateRow db clientId in1]).map fun r =>
        if r.clientId == clientId && r.externalId == in1.externalId then
          subjectCompanyUpdateRow (subjectCompanyCreateRow db clientId in1)
            { externalId := in1.externalId, name := nm2, domain := dm2
              industry := id2, country := ct2, metadata := md2 }
        else r).filter
      (fun r => r.clientId == clientId && r.externalId == in1.externalId)
      = [subjectCompanyUpdateRow (subjectCompanyCreateRow db clientId in1)
          { externalId := in1.externalId, name := nm2, domain := dm2
            industry := id2, country := ct2, metadata := md2 }] := by
    rw [List.map_append, List.filter_append,
      filter_map_replace_none _ _ _ (fun x hx => Bool.eq_false_iff.mpr (hforall x hx))]
    simp only [List.map_cons, List.map_nil, hprow1, if_pos hprow1]
    simp [subjectCompanyUpdateRow, subjectCompanyCreateRow]
  refine ⟨?_, rfl, rfl, rfl, rfl, rfl, rfl, rfl, hfilter⟩
  simp only [countCompaniesFor]
  rw [hfilter]
  rfl

/-- Witness for C6: resolving `(client 1, "n-1")` twice, the second call
updating name/industry/country but passing a blank domain, leaves one
row whose domain keeps the first call's `"n.com"`. -/
theorem entity_resolution_idempotent_witness :
    countCompaniesFor (findOrCreateSubjectCompany
        (findOrCreateSubjectCompany sampleDb 1 resolverInput1).1 1 resolverInput2).1
        1 "n-1" = 1
    ∧ ((findOrCreateSubjectCompany
        (findOrCreateSubjectCompany sampleDb 1 resolverInput1).1 1 resolverInput2).2).name
        = "N2"
    ∧ ((findOrCreateSubjectCompany
        (findOrCreateSubjectCompany sampleDb 1 resolverInput1).1 1 resolverInput2).2).domain
        = (if strTruthy resolverInput2.domain then resolverInput2.domain
           else ((findOrCreateSubjectCompany sampleDb 1 resolverInput1).2).domain) :=
  ⟨(entity_resolution_idempotent sampleDb 1 resolverInput1 resolverInput2
      (by decide) rfl).1,
   (entity_resolution_idempotent sampleDb 1 resolverInput1 resolverInput2
      (by decide) rfl).2.2.2.1,
   (entity_resolution_idempotent sampleDb 1 resolverInput1 resolverInput2
      (by decide) rfl).2.2.2.2.1⟩

/-- A key with zero matching rows is matched by no row. -/
theorem any_eq_false_of_filter_length_zero {α : Type} (l : List α) (p : α → Bool)
    (h : (l.filter p).length = 0) : l.any p = false := by
  rw [List.any_eq_false]
  intro x hx
  exact (List.filter_eq_nil_iff.mp (List.length_eq_zero.mp h)) x hx

/-- C8: calling `linkDecisions` twice with an identical
`(from, to, type)` triple (endpoints existing, no prior link) succeeds
both times — the first returns the link, the second swallows the
duplicate-key failure and returns null — and exactly one link row with
that key exists afterwards. -/
theorem link_decisions_idempotent
    (db : DB) (f t : DecisionId) (rt : RelationshipType)
    (c1 c2 : Option Nat) (n1 n2 : Option String)
    (hf : (db.decisions.any fun d => d.id == f) = true)
    (ht : (db.decisions.any fun d => d.id == t) = true)
    (h0 : countLinks db f t rt = 0) :
    ((linkDecisions db f t rt c1 n1).2).isSome = true
    ∧ (linkDecisions (linkDecisions db f t rt c1 n1).1 f t rt c2 n2).2 = none
    ∧ countLinks (linkDecisions (linkDecisions db f t rt c1 n1).1 f t rt c2 n2).1
        f t rt = 1 := by
  have hany : (db.links.any fun l =>
      l.fromDecisionId == f && l.toDecisionId == t && l.relationshipType == rt) = false :=
    any_eq_false_of_filter_length_zero _ _ h0
  have hcreate1 : decisionLinkCreate db f t rt c1 n1
      = .ok ({ db with links := db.links ++ [⟨f, t, rt, c1, n1⟩] }, ⟨f, t, rt, c1, n1⟩) := by
    simp [decisionLinkCreate, hf, ht, hany]
  have hlink1 : linkDecisions db f t rt c1 n1
      = ({ db with links := db.links ++ [⟨f, t, rt, c1, n1⟩] }, some ⟨f, t, rt, c1, n1⟩) := by
    unfold linkDecisions
    rw [hcreate1]
  have hany2 : (({ db with links := db.links ++ [⟨f, t, rt, c1, n1⟩] } : DB).links.any fun l =>
      l.fromDecisionId == f && l.toDecisionId == t && l.relationshipType == rt) = true := by
    simp only []
    rw [List.any_append]
    simp
  have hcreate2 : decisionLinkCreate
      { db with links := db.links ++ [⟨f, t, rt, c1, n1⟩] } f t rt c2 n2
      = .error .uniqueViolation := by
    simp [decisionLinkCreate, hf, ht, hany2]
  have hlink2 : linkDecisions
      { db with links := db.links ++ [⟨f, t, rt, c1, n1⟩] } f t rt c2 n2
      = ({ db with links := db.links ++ [⟨f, t, rt, c1, n1⟩] }, none) := by
    unfold linkDecisions
    rw [hcreate2]
  rw [hlink1]
  refine ⟨rfl, ?_, ?_⟩
  · simp only []
    rw [hlink2]
  · simp only []
    rw [hlink2]
    simp only [countLinks, List.filter_append]
    rw [List.length_append]
    unfold countLinks at h0
    rw [h0]
    simp

/-- Witness for C8: linking decisions 1 and 2 as `PRECEDENT` twice
yields one link row and a swallowed second call. -/
theorem link_decisions_idempotent_witness :
    ((linkDecisions sampleDb 1 2 .PRECEDENT none none).2).isSome = true
    ∧ (linkDecisions (linkDecisions sampleDb 1 2 .PRECEDENT none none).1
        1 2 .PRECEDENT none none).2 = none
    ∧ countLinks (linkDecisions (linkDecisions sampleDb 1 2 .PRECEDENT none none).1
        1 2 .PRECEDENT none none).1 1 2 .PRECEDENT = 1 :=
  link_decisions_idempotent sampleDb 1 2 .PRECEDENT none none none none
    (by decide) (by decide) (by decide)

end GcApi
